import Mathlib

/-!
Verification of the Scrp job-scraping pipeline.

Python strings are modelled as `List Char` (`PyStr`); `str.lower()` is ASCII
lowering (CPython behaviour on ASCII data), `a in b` is substring containment,
and Python float constants (0.8, 0.3) are modelled as the exact rationals they
denote in the source text.  Dictionaries with a known key set are modelled as
structures with `Option` fields (`none` = key absent).  The fuzzywuzzy
similarity primitives `fuzz.token_sort_ratio` and `fuzz.partial_ratio` are an
external library, not repository code: they are kept abstract as a `Fuzz`
record of functions, and the documented properties of the library that a
theorem needs (score of processed-equal strings is 100, scores are
non-negative, scores are insensitive to the case of either argument because
the library lowercases its inputs) appear as explicit hypotheses.
-/

/-- A Python string, modelled as its list of characters. -/
abbrev PyStr := List Char

/-- ASCII lowering of one character, as CPython `str.lower` acts on ASCII. -/
def lowerChar (c : Char) : Char := Char.toLower c

/-- Python `s.lower()` on a string. -/
def lowerL (s : PyStr) : PyStr := s.map lowerChar

/-- Python `needle in hay` substring containment on strings. -/
def containsSub (needle hay : PyStr) : Bool := decide (needle <:+: hay)

/-- Python `s.startswith(p)`. -/
def startsWithL (p s : PyStr) : Bool := decide (p <+: s)

/-- Python `str.split()` with no argument: split on runs of whitespace,
dropping empty pieces. -/
def splitWs : PyStr → List PyStr
  | [] => []
  | c :: cs =>
    if c.isWhitespace then splitWs cs
    else (c :: cs.takeWhile (fun d => !d.isWhitespace)) ::
      splitWs (cs.dropWhile (fun d => !d.isWhitespace))
termination_by l => l.length
decreasing_by
  · simp only [List.length_cons]
    omega
  · simp only [List.length_cons]
    have := (@List.dropWhile_sublist _ cs (fun d => !d.isWhitespace)).length_le
    omega

theorem char_toNat_ofNat_valid (n : Nat) (h : Nat.isValidChar n) :
    (Char.ofNat n).toNat = n := by
  simp [Char.ofNat, h, Char.ofNatAux, Char.toNat, UInt32.ofNatCore, UInt32.toNat]

theorem lowerChar_idem (c : Char) : lowerChar (lowerChar c) = lowerChar c := by
  unfold lowerChar Char.toLower
  by_cases h : c.toNat ≥ 65 ∧ c.toNat ≤ 90
  · rw [if_pos h]
    have hv : Nat.isValidChar (c.toNat + 32) := Or.inl (by omega)
    rw [char_toNat_ofNat_valid _ hv, if_neg (by omega)]
  · rw [if_neg h, if_neg h]

theorem lowerL_idem (s : PyStr) : lowerL (lowerL s) = lowerL s := by
  unfold lowerL
  rw [List.map_map]
  exact List.map_congr_left (fun c _ => lowerChar_idem c)

theorem lowerL_append (s t : PyStr) : lowerL (s ++ t) = lowerL s ++ lowerL t := by
  unfold lowerL
  exact List.map_append _ _ _

/-- A substring made of already-lowercase characters survives lowering of the
ambient string. -/
theorem infix_lowerL_of_infix {needle hay : PyStr} (hfix : lowerL needle = needle)
    (h : needle <:+: hay) : needle <:+: lowerL hay := by
  obtain ⟨u, v, huv⟩ := h
  refine ⟨lowerL u, lowerL v, ?_⟩
  rw [← huv]
  simp only [lowerL, List.map_append]
  rw [show List.map lowerChar needle = needle from hfix]

theorem containsSub_lowerL_of_containsSub {needle hay : PyStr}
    (hfix : lowerL needle = needle) (h : containsSub needle hay = true) :
    containsSub needle (lowerL hay) = true := by
  simp only [containsSub, decide_eq_true_eq] at h ⊢
  exact infix_lowerL_of_infix hfix h

/-- Every character of a `splitWs` token is a character of the input. -/
theorem splitWs_mem_chars :
    ∀ (s : PyStr), ∀ x ∈ splitWs s, ∀ c ∈ x, c ∈ s := by
  intro s
  induction s using splitWs.induct with
  | case1 => intro x hx; simp [splitWs] at hx
  | case2 c cs hw ih =>
    intro x hx d hd
    rw [splitWs, if_pos hw] at hx
    exact List.mem_cons_of_mem _ (ih x hx d hd)
  | case3 c cs hw ih =>
    intro x hx d hd
    rw [splitWs, if_neg hw] at hx
    rcases List.mem_cons.mp hx with h | h
    · subst h
      rcases List.mem_cons.mp hd with h | h
      · exact h ▸ List.mem_cons_self _ _
      · exact List.mem_cons_of_mem _
          ((List.takeWhile_sublist _).subset h)
    · exact List.mem_cons_of_mem _
        ((List.dropWhile_sublist _).subset (ih x h d hd))

/-- Tokens of an already-lowered string are fixed by lowering. -/
theorem splitWs_lowerL_fixed {s : PyStr} {x : PyStr}
    (hx : x ∈ splitWs (lowerL s)) : lowerL x = x := by
  have h1 : ∀ c ∈ x, lowerChar c = c := by
    intro c hc
    have hmem : c ∈ lowerL s := splitWs_mem_chars (lowerL s) x hx c hc
    obtain ⟨d, _, rfl⟩ := List.mem_map.mp hmem
    exact lowerChar_idem d
  exact (List.map_congr_left h1).trans (List.map_id x)

/-!
## Fuzzy Matcher — `src/tools/job_matching_tool.py`
-/

/-- The fuzzywuzzy similarity primitives, kept abstract (external library).
Both return a similarity score; theorems state the library properties they
rely on as hypotheses. -/
structure Fuzz where
  token_sort_ratio : PyStr → PyStr → ℚ
  partial_ratio : PyStr → PyStr → ℚ

/-- One entry of the `job_links` list: a dict with optional `title` and
`url` keys (`none` models an absent or `None`-valued key). -/
structure JmLink where
  title : Option PyStr := none
  url : Option PyStr := none
deriving DecidableEq

/-- The `job_params` dict as consumed by the matchers. -/
structure JobParams where
  job_title : Option PyStr := none
  location : Option PyStr := none

/-- One scored entry of `all_matches` in `find_all_job_matches`
(lines 523-528): the spread link plus the three added score fields. -/
structure JmMatch where
  link : JmLink
  match_score : ℚ
  title_similarity : ℚ
  partial_similarity : ℚ
deriving DecidableEq

/-- The location bonus shared by both matchers (lines 174-178 and 507-511):
+20 when the (lowered, truthy) location is a substring of the candidate
title, else +10 when it is a substring of the candidate url. -/
def locationBonus (loc t u : PyStr) : ℚ :=
  if loc ≠ [] ∧ containsSub loc t then 20
  else if loc ≠ [] ∧ containsSub loc u then 10 else 0

/-- The keyword bonus loop of `find_all_job_matches` (lines 513-517):
+15 per token of the (lowered) job title of length > 2 occurring verbatim
in the raw candidate title. -/
def keywordBonusAll (jt t : PyStr) : ℚ :=
  ((splitWs jt).map (fun kw =>
    if 2 < kw.length ∧ containsSub kw t then (15 : ℚ) else 0)).sum

/-- The total score of one link in `find_all_job_matches` (lines 499-519).
`jt` and `loc` are the already-lowered job title and location (lines
482-483); `t` and `u` are the raw candidate title and url, exactly as the
source passes them to the similarity calls and substring tests. -/
def allLinkScore (F : Fuzz) (jt loc t u : PyStr) : ℚ :=
  let title_similarity := F.token_sort_ratio jt t
  let partial_similarity := F.partial_ratio jt t
  let url_similarity := F.partial_ratio jt u
  let base_score := max title_similarity (partial_similarity * (0.8 : ℚ))
  let url_bonus := url_similarity * (0.3 : ℚ)
  base_score + url_bonus + locationBonus loc t u + keywordBonusAll jt t

/-- Loop body of `find_all_job_matches` (lines 488-528): links whose title
is absent or empty are skipped, and a scored match is appended only when
the total reaches the threshold 80. -/
def processLink (F : Fuzz) (jt loc : PyStr) (link : JmLink) : Option JmMatch :=
  match link.title with
  | none => none
  | some t =>
    if t = [] then none
    else
      let u := link.url.getD []
      let score := allLinkScore F jt loc t u
      if 80 ≤ score then
        some ⟨link, score, F.token_sort_ratio jt t, F.partial_ratio jt t⟩
      else none

/-- Result dict of `find_all_job_matches`; `none` fields model keys the
returned dict does not carry on that path. -/
structure AllMatchesResult where
  success : Bool
  error : Option PyStr := none
  matches_ : Option (List JmMatch) := none
  total_matches : Option Nat := none
  threshold_used : Option ℚ := none
deriving DecidableEq

/-- Descending stable sort used for `matches.sort(key=..., reverse=True)`. -/
def sortByScoreDesc (l : List JmMatch) : List JmMatch :=
  l.mergeSort (fun a b => decide (b.match_score ≤ a.match_score))

/-- Embeds `find_all_job_matches` (lines 471-544).  The log line 473 indexes
`job_params['job_title']` before the `try`, so a missing key raises
(`.error`); an empty title returns the failure dict of line 480; otherwise
every titled link is scored, thresholded at 80 and the kept matches are
sorted descending by `match_score`. -/
def find_all_job_matches (F : Fuzz) (job_links : List JmLink)
    (params : JobParams) : Except PyStr AllMatchesResult :=
  match params.job_title with
  | none => .error ("KeyError: job_title".toList)
  | some jt0 =>
    if jt0 = [] then
      .ok { success := false, error := some ("No job title provided".toList) }
    else
      let jt := lowerL jt0
      let loc := lowerL (params.location.getD [])
      let all_matches := job_links.filterMap (processLink F jt loc)
      let sorted := sortByScoreDesc all_matches
      .ok { success := true, matches_ := some sorted,
            total_matches := some sorted.length, threshold_used := some 80 }

/-- The keyword bonus loop of `find_best_match` (lines 180-188): +15 for a
verbatim token hit, else +10 when the fuzzy partial score exceeds 85. -/
def keywordBonusBest (F : Fuzz) (jt t : PyStr) : ℚ :=
  ((splitWs jt).map (fun kw =>
    if 2 < kw.length then
      (if containsSub kw t then (15 : ℚ)
       else if 85 < F.partial_ratio kw t then 10 else 0)
    else 0)).sum

/-- The `match_score` that `find_best_match` (lines 158-201) assigns to one
link.  `jt` and `loc` are the already-lowered job title and location (lines
155-156); unlike `find_all_job_matches`, this function lowercases the
candidate title and url before every similarity call and substring test. -/
def bestLinkScore (F : Fuzz) (jt loc : PyStr) (link : JmLink) : ℚ :=
  let t := lowerL (link.title.getD [])
  let u := lowerL (link.url.getD [])
  let title_similarity := F.token_sort_ratio jt t
  let partial_similarity := F.partial_ratio jt t
  let url_similarity := F.partial_ratio jt u
  let base_score := max title_similarity (partial_similarity * (0.8 : ℚ))
  let url_bonus := url_similarity * (0.3 : ℚ)
  base_score + url_bonus + locationBonus loc t u + keywordBonusBest F jt t

/-- Spec-side predicate: a link is retained by `find_all_job_matches` iff its
title is present and non-empty and its total score reaches 80. -/
def keepsLink (F : Fuzz) (jt loc : PyStr) (l : JmLink) : Bool :=
  decide (l.title.getD [] ≠ []) &&
    decide (80 ≤ allLinkScore F jt loc (l.title.getD []) (l.url.getD []))

/-- Spec-side view of the match record built for a retained link. -/
def specMatch (F : Fuzz) (jt loc : PyStr) (l : JmLink) : JmMatch :=
  ⟨l, allLinkScore F jt loc (l.title.getD []) (l.url.getD []),
    F.token_sort_ratio jt (l.title.getD []),
    F.partial_ratio jt (l.title.getD [])⟩

theorem processLink_eq_spec (F : Fuzz) (jt loc : PyStr) (l : JmLink) :
    processLink F jt loc l =
      if keepsLink F jt loc l then some (specMatch F jt loc l) else none := by
  unfold processLink keepsLink specMatch
  cases h : l.title with
  | none => simp [h]
  | some t =>
    simp only [h, Option.getD_some]
    by_cases ht : t = []
    · simp [ht]
    · by_cases hs : 80 ≤ allLinkScore F jt loc t (l.url.getD [])
      · simp [ht, hs]
      · simp [ht, hs]

theorem filterMap_processLink (F : Fuzz) (jt loc : PyStr) :
    ∀ (ls : List JmLink),
      ls.filterMap (processLink F jt loc) =
        (ls.filter (keepsLink F jt loc)).map (specMatch F jt loc) := by
  intro ls
  induction ls with
  | nil => rfl
  | cons l rest ih =>
    rw [List.filterMap_cons, List.filter_cons, processLink_eq_spec]
    by_cases h : keepsLink F jt loc l
    · simp [h, ih]
    · simp [h, ih]

theorem sortByScoreDesc_perm (l : List JmMatch) : (sortByScoreDesc l).Perm l :=
  List.mergeSort_perm l _

theorem sortByScoreDesc_sorted (l : List JmMatch) :
    List.Sorted (fun a b => b.match_score ≤ a.match_score) (sortByScoreDesc l) := by
  have hp := @List.sorted_mergeSort JmMatch
    (fun a b : JmMatch => decide (b.match_score ≤ a.match_score))
    (fun a b c hab hbc => by
      simp only [decide_eq_true_eq] at hab hbc ⊢
      exact le_trans hbc hab)
    (fun a b => by
      simp only [Bool.or_eq_true, decide_eq_true_eq]
      exact le_total b.match_score a.match_score)
    l
  exact hp.imp (fun h => of_decide_eq_true h)

/-- C1.  For every list of candidate job links and every job target with a
non-empty title, `find_all_job_matches` succeeds and its `matches` list is
exactly (a permutation, sorted descending by `match_score`) the set of
candidates that carry a non-empty title and whose total fuzzy score is at
least 80; on an empty input list it does not raise and returns the empty
success result with `total_matches = 0`. -/
theorem find_all_job_matches_threshold_sorted (F : Fuzz) (params : JobParams)
    (jt0 : PyStr) (hjt : params.job_title = some jt0) (hne : jt0 ≠ [])
    (job_links : List JmLink) :
    (∃ r, find_all_job_matches F job_links params = .ok r ∧
      r.success = true ∧
      ∃ M, r.matches_ = some M ∧
        M.Perm ((job_links.filter
            (keepsLink F (lowerL jt0) (lowerL (params.location.getD [])))).map
          (specMatch F (lowerL jt0) (lowerL (params.location.getD [])))) ∧
        List.Sorted (fun a b => b.match_score ≤ a.match_score) M ∧
        ∀ m ∈ M, 80 ≤ m.match_score) ∧
    find_all_job_matches F [] params =
      .ok { success := true, matches_ := some [], total_matches := some 0,
            threshold_used := some 80 } := by
  have hbody : ∀ (ls : List JmLink),
      find_all_job_matches F ls params =
        .ok { success := true,
              matches_ := some (sortByScoreDesc (ls.filterMap
                (processLink F (lowerL jt0) (lowerL (params.location.getD []))))),
              total_matches := some (sortByScoreDesc (ls.filterMap
                (processLink F (lowerL jt0)
                  (lowerL (params.location.getD []))))).length,
              threshold_used := some 80 } := by
    intro ls
    unfold find_all_job_matches
    rw [hjt]
    simp [hne]
  constructor
  · refine ⟨_, hbody job_links, rfl, _, rfl, ?_, ?_, ?_⟩
    · rw [filterMap_processLink]
      exact (sortByScoreDesc_perm _).trans (List.Perm.refl _)
    · exact sortByScoreDesc_sorted _
    · intro m hm
      have hm' : m ∈ job_links.filterMap
          (processLink F (lowerL jt0) (lowerL (params.location.getD []))) :=
        (sortByScoreDesc_perm _).mem_iff.mp hm
      rw [filterMap_processLink] at hm'
      obtain ⟨l, hl, rfl⟩ := List.mem_map.mp hm'
      have hk := List.of_mem_filter hl
      unfold keepsLink at hk
      have := (Bool.and_eq_true _ _).mp hk
      exact of_decide_eq_true this.2
  · rw [hbody []]
    simp [sortByScoreDesc]

/-- A trivial concrete instantiation of the similarity primitives, used by
witnesses whose theorem needs no library property. -/
def fuzzZero : Fuzz := ⟨fun _ _ => 0, fun _ _ => 0⟩

theorem find_all_job_matches_threshold_sorted_witness :
    find_all_job_matches fuzzZero []
        { job_title := some ("engineer".toList), location := none } =
      .ok { success := true, matches_ := some [], total_matches := some 0,
            threshold_used := some 80 } :=
  (find_all_job_matches_threshold_sorted fuzzZero
    { job_title := some ("engineer".toList), location := none }
    ("engineer".toList) rfl (by decide) []).2

theorem locationBonus_nonneg (loc t u : PyStr) : 0 ≤ locationBonus loc t u := by
  unfold locationBonus
  split_ifs <;> norm_num

theorem keywordBonusAll_nonneg (jt t : PyStr) : 0 ≤ keywordBonusAll jt t := by
  unfold keywordBonusAll
  apply List.sum_nonneg
  intro q hq
  obtain ⟨kw, _, rfl⟩ := List.mem_map.mp hq
  split_ifs <;> norm_num

theorem keywordBonusBest_nonneg (F : Fuzz) (jt t : PyStr) :
    0 ≤ keywordBonusBest F jt t := by
  unfold keywordBonusBest
  apply List.sum_nonneg
  intro q hq
  obtain ⟨kw, _, rfl⟩ := List.mem_map.mp hq
  split_ifs <;> norm_num

/-- C2.  When the candidate title equals the target title up to case, the
match score computed for that candidate — by `find_all_job_matches` and by
`find_best_match` alike — is at least 100: the token-sort similarity of
processed-equal strings is 100 (fuzzywuzzy lowercases its inputs), the base
score is at least that, and the url, location and keyword bonus terms are
all non-negative (given the library's scores are non-negative). -/
theorem exact_title_match_score_ge_100 (F : Fuzz)
    (h100 : ∀ a b, lowerL a = lowerL b → F.token_sort_ratio a b = 100)
    (hnn : ∀ a b, 0 ≤ F.partial_ratio a b)
    (jt0 loc0 t u : PyStr) (heq : lowerL t = lowerL jt0) :
    100 ≤ allLinkScore F (lowerL jt0) loc0 t u ∧
      100 ≤ bestLinkScore F (lowerL jt0) loc0 ⟨some t, some u⟩ := by
  constructor
  · unfold allLinkScore
    have hts : F.token_sort_ratio (lowerL jt0) t = 100 :=
      h100 _ _ (by rw [lowerL_idem, heq])
    have hbase : (100 : ℚ) ≤ max (F.token_sort_ratio (lowerL jt0) t)
        (F.partial_ratio (lowerL jt0) t * (0.8 : ℚ)) :=
      le_trans (le_of_eq hts.symm) (le_max_left _ _)
    have hurl : (0 : ℚ) ≤ F.partial_ratio (lowerL jt0) u * (0.3 : ℚ) :=
      mul_nonneg (hnn _ _) (by norm_num)
    have := locationBonus_nonneg loc0 t u
    have := keywordBonusAll_nonneg (lowerL jt0) t
    linarith
  · unfold bestLinkScore
    simp only [Option.getD_some]
    have hts : F.token_sort_ratio (lowerL jt0) (lowerL t) = 100 :=
      h100 _ _ (by rw [lowerL_idem, lowerL_idem, heq])
    have hbase : (100 : ℚ) ≤ max (F.token_sort_ratio (lowerL jt0) (lowerL t))
        (F.partial_ratio (lowerL jt0) (lowerL t) * (0.8 : ℚ)) :=
      le_trans (le_of_eq hts.symm) (le_max_left _ _)
    have hurl : (0 : ℚ) ≤ F.partial_ratio (lowerL jt0) (lowerL u) * (0.3 : ℚ) :=
      mul_nonneg (hnn _ _) (by norm_num)
    have := locationBonus_nonneg loc0 (lowerL t) (lowerL u)
    have := keywordBonusBest_nonneg F (lowerL jt0) (lowerL t)
    linarith

/-- A concrete case-insensitive instantiation of the similarity primitives:
full score exactly on processed-equal strings. -/
def fuzzCase : Fuzz :=
  ⟨fun a b => if lowerL a = lowerL b then 100 else 0, fun _ _ => 0⟩

theorem exact_title_match_score_ge_100_witness :
    100 ≤ allLinkScore fuzzCase (lowerL ("Engineer".toList)) []
        ("ENGINEER".toList) ("https://x".toList) ∧
      100 ≤ bestLinkScore fuzzCase (lowerL ("Engineer".toList)) []
        ⟨some ("ENGINEER".toList), some ("https://x".toList)⟩ :=
  exact_title_match_score_ge_100 fuzzCase
    (fun a b h => by simp [fuzzCase, h])
    (fun _ _ => le_refl 0)
    ("Engineer".toList) [] ("ENGINEER".toList) ("https://x".toList) (by decide)

theorem locationBonus_le_lowered (loc t u : PyStr) (hfix : lowerL loc = loc) :
    locationBonus loc t u ≤ locationBonus loc (lowerL t) (lowerL u) := by
  unfold locationBonus
  by_cases h1 : loc ≠ [] ∧ containsSub loc t
  · rw [if_pos h1, if_pos ⟨h1.1, containsSub_lowerL_of_containsSub hfix h1.2⟩]
  · rw [if_neg h1]
    by_cases h2 : loc ≠ [] ∧ containsSub loc u
    · rw [if_pos h2]
      have h2' : containsSub loc (lowerL u) = true :=
        containsSub_lowerL_of_containsSub hfix h2.2
      by_cases h3 : loc ≠ [] ∧ containsSub loc (lowerL t)
      · rw [if_pos h3]; norm_num
      · rw [if_neg h3, if_pos ⟨h2.1, h2'⟩]
    · rw [if_neg h2]
      have := locationBonus_nonneg loc (lowerL t) (lowerL u)
      unfold locationBonus at this
      exact this

theorem keywordBonusAll_le_best (F : Fuzz) (jt t : PyStr) :
    keywordBonusAll (lowerL jt) t ≤ keywordBonusBest F (lowerL jt) (lowerL t) := by
  unfold keywordBonusAll keywordBonusBest
  apply List.sum_le_sum
  intro kw hkw
  have hfix : lowerL kw = kw := splitWs_lowerL_fixed hkw
  by_cases hlen : 2 < kw.length
  · by_cases hsub : containsSub kw t
    · rw [if_pos ⟨hlen, hsub⟩, if_pos hlen,
        if_pos (containsSub_lowerL_of_containsSub hfix hsub)]
    · rw [if_neg (fun h => hsub h.2)]
      split_ifs <;> norm_num
  · rw [if_neg (fun h => hlen h.1), if_neg hlen]

/-- C10.  On any link carrying a non-empty title, the total score computed
by `find_all_job_matches` never exceeds the one computed by `find_best_match`
for the same target: the base, url and location terms agree (fuzzywuzzy
scores are insensitive to the casing of the candidate argument, and a
lowercase location substring of the raw title/url is also a substring of the
lowered one), and each keyword term of `find_all_job_matches` (15 or 0) is
bounded by the corresponding `find_best_match` term, which can also grant
the fuzzy +10 that `find_all_job_matches` omits. -/
theorem find_all_score_le_find_best_score (F : Fuzz)
    (hts : ∀ a b, F.token_sort_ratio a (lowerL b) = F.token_sort_ratio a b)
    (hpr : ∀ a b, F.partial_ratio a (lowerL b) = F.partial_ratio a b)
    (jt0 loc0 : PyStr) (link : JmLink) (t : PyStr)
    (ht : link.title = some t) (_hne : t ≠ []) :
    allLinkScore F (lowerL jt0) (lowerL loc0) t (link.url.getD []) ≤
      bestLinkScore F (lowerL jt0) (lowerL loc0) link := by
  unfold allLinkScore bestLinkScore
  rw [ht]
  simp only [Option.getD_some]
  rw [hts (lowerL jt0) t, hpr (lowerL jt0) t, hpr (lowerL jt0) (link.url.getD [])]
  have hloc := locationBonus_le_lowered (lowerL loc0) t (link.url.getD [])
    (lowerL_idem loc0)
  have hkw := keywordBonusAll_le_best F jt0 t
  exact add_le_add (add_le_add (add_le_add (le_refl _) (le_refl _)) hloc) hkw

theorem find_all_score_le_find_best_score_witness :
    allLinkScore fuzzZero (lowerL ("sap berater".toList)) (lowerL [])
        ("SAP FI Berater".toList) ("https://x/7".toList) ≤
      bestLinkScore fuzzZero (lowerL ("sap berater".toList)) (lowerL [])
        ⟨some ("SAP FI Berater".toList), some ("https://x/7".toList)⟩ :=
  find_all_score_le_find_best_score fuzzZero
    (fun _ _ => rfl) (fun _ _ => rfl)
    ("sap berater".toList) []
    ⟨some ("SAP FI Berater".toList), some ("https://x/7".toList)⟩
    ("SAP FI Berater".toList) rfl (by decide)

/-!
## Pagination Controller — `src/tools/search_pagination_tool.py`
-/

/-- One record produced by the per-page extraction callback of
`handle_pagination`; only its optional `url` key matters to the controller. -/
structure PagItem where
  url : Option PyStr := none
  title : Option PyStr := none
deriving DecidableEq

/-- The externally-determined outcomes of one iteration of the
`handle_pagination` loop: the per-page extractor either returns a list of
records or raises (caught at line 309), and `_click_next_page` — whose body
catches every selector's exception internally (lines 373-395) — returns
whether a next control was found, visible, enabled and not disabled. -/
structure PageStep where
  extract : Except PyStr (List PagItem)
  next : Bool

/-- The set `existing_urls` (line 302): the set of truthy `url` values accumulated
so far. -/
def existingUrls (acc : List PagItem) : List PyStr :=
  acc.filterMap (fun p =>
    match p.url with
    | some u => if u ≠ [] then some u else none
    | none => none)

/-- Python `item.get('url') not in existing_urls` (line 303), negated:
membership of an optional url value in a set of strings. -/
def memOpt (o : Option PyStr) (s : List PyStr) : Bool :=
  match o with
  | none => false
  | some u => decide (u ∈ s)

/-- One dedup-and-extend step (lines 300-305): the new page's records are
filtered against the urls accumulated on previous pages only, then appended. -/
def dedupExtend (acc page_results : List PagItem) : List PagItem :=
  acc ++ page_results.filter (fun it => !memOpt it.url (existingUrls acc))

/-- The `while page_count < self.max_pages` loop of `handle_pagination`
(lines 292-320): extract (exceptions caught and logged), dedup-extend when
the page yielded records, then advance or stop. -/
def pagLoop (env : Nat → PageStep) : Nat → List PagItem → Nat →
    List PagItem × Nat
  | 0, acc, pc => (acc, pc)
  | fuel + 1, acc, pc =>
    let acc' :=
      match (env pc).extract with
      | .ok rs => if rs = [] then acc else dedupExtend acc rs
      | .error _ => acc
    if (env pc).next then pagLoop env fuel acc' (pc + 1) else (acc', pc + 1)

/-- Result dict of `handle_pagination`. -/
structure PagResult where
  success : Bool
  all_results : List PagItem
  pages_scraped : Nat
  error : Option PyStr := none
deriving DecidableEq

/-- Embeds `handle_pagination` (lines 274-337), driven by the per-iteration outcomes
`env`.  `max_pages` is 5.  Nothing inside the outer `try` other than the
extractor call can raise (the extractor is wrapped in its own `try` at lines
297-310 and `_click_next_page` swallows its exceptions per selector), so the
loop always completes and returns `success=True` with the accumulated,
URL-deduplicated results. -/
def handle_pagination (env : Nat → PageStep) : PagResult :=
  let r := pagLoop env 5 [] 0
  { success := true, all_results := r.1, pages_scraped := r.2 }

/-- Replace the extraction outcome of iteration `k`, keeping its
advance outcome. -/
def overrideExtract (env : Nat → PageStep) (k : Nat)
    (x : Except PyStr (List PagItem)) : Nat → PageStep :=
  fun n => if n = k then { extract := x, next := (env k).next } else env n

theorem pagLoop_override_error (env : Nat → PageStep) (k : Nat) (e : PyStr) :
    ∀ (fuel : Nat) (acc : List PagItem) (pc : Nat),
      pagLoop (overrideExtract env k (.error e)) fuel acc pc =
        pagLoop (overrideExtract env k (.ok [])) fuel acc pc := by
  intro fuel
  induction fuel with
  | zero => intro acc pc; rfl
  | succ n ih =>
    intro acc pc
    by_cases h : pc = k
    · subst h
      by_cases hn : (env pc).next
      · simp [pagLoop, overrideExtract, hn, ih]
      · simp [pagLoop, overrideExtract, hn]
    · by_cases hn : (env pc).next
      · simp [pagLoop, overrideExtract, h, hn, ih]
      · simp [pagLoop, overrideExtract, h, hn]

/-- C7.  An extraction exception on any one page of the pagination drive is
equivalent to that page yielding no results: the loop continues and all
other pages' results are retained.  The normal exit always reports
`success=True` (the accumulated partial results are returned), and a
failure result can only carry an empty accumulation. -/
theorem pagination_extraction_error_continues (env : Nat → PageStep)
    (k : Nat) (e : PyStr) :
    handle_pagination (overrideExtract env k (.error e)) =
      handle_pagination (overrideExtract env k (.ok [])) ∧
    (handle_pagination env).success = true ∧
    ((handle_pagination env).success = false →
      (handle_pagination env).all_results = []) := by
  refine ⟨?_, rfl, ?_⟩
  · unfold handle_pagination
    rw [pagLoop_override_error]
  · intro h
    exact absurd h (by simp [handle_pagination])

theorem pagination_extraction_error_continues_witness :
    (handle_pagination (overrideExtract
        (fun _ => ⟨.ok [⟨some ("https://a/1".toList), none⟩], false⟩) 0
        (.error ("Timeout".toList))) =
      handle_pagination (overrideExtract
        (fun _ => ⟨.ok [⟨some ("https://a/1".toList), none⟩], false⟩) 0
        (.ok []))) ∧
    (handle_pagination
        (fun _ => ⟨.ok [⟨some ("https://a/1".toList), none⟩], false⟩)).success
      = true ∧
    ((handle_pagination
        (fun _ => ⟨.ok [⟨some ("https://a/1".toList), none⟩], false⟩)).success
        = false →
      (handle_pagination
        (fun _ => ⟨.ok [⟨some ("https://a/1".toList), none⟩], false⟩)).all_results
        = []) :=
  pagination_extraction_error_continues
    (fun _ => ⟨.ok [⟨some ("https://a/1".toList), none⟩], false⟩) 0
    ("Timeout".toList)

/-- A two-page pagination environment: page 1 yields `A` and has a next
control, page 2 yields `B` and stops. -/
def env2 (A B : List PagItem) : Nat → PageStep
  | 0 => ⟨.ok A, true⟩
  | 1 => ⟨.ok B, false⟩
  | _ + 2 => ⟨.ok [], false⟩

/-- C5 counterexample.  The per-page extractor produces the same URL on two
different pages — twice on page 1 and once on page 2 — yet TWO results with
that URL are retained: deduplication is applied only against previously
accumulated pages, never within one page's batch, so "exactly one result
with that URL" fails. -/
theorem pagination_dedup_counterexample :
    (handle_pagination (env2
        [⟨some ("https://x/j1".toList), some ("a".toList)⟩,
         ⟨some ("https://x/j1".toList), some ("b".toList)⟩]
        [⟨some ("https://x/j1".toList), some ("c".toList)⟩])).all_results.countP
      (fun it => decide (it.url = some ("https://x/j1".toList))) = 2 := by
  decide

theorem memOpt_nil (o : Option PyStr) : memOpt o [] = false := by
  cases o <;> simp [memOpt]

theorem mem_existingUrls {acc : List PagItem} {u : PyStr} :
    u ∈ existingUrls acc ↔ (∃ a ∈ acc, a.url = some u) ∧ u ≠ [] := by
  unfold existingUrls
  rw [List.mem_filterMap]
  constructor
  · rintro ⟨a, ha, hu⟩
    cases h : a.url with
    | none => rw [h] at hu; exact absurd hu (by simp)
    | some v =>
      rw [h] at hu
      have hu' : (if v ≠ [] then some v else none) = some u := hu
      by_cases hv : v ≠ []
      · rw [if_pos hv] at hu'
        obtain rfl : v = u := by simpa using hu'
        exact ⟨⟨a, ha, h⟩, hv⟩
      · rw [if_neg hv] at hu'
        exact absurd hu' (by simp)
  · rintro ⟨⟨a, ha, hu⟩, hne⟩
    refine ⟨a, ha, ?_⟩
    rw [hu]
    show (if u ≠ [] then some u else none) = some u
    rw [if_pos hne]

theorem filter_eq_self_of_memOpt_nil (A : List PagItem) :
    A.filter (fun it => !memOpt it.url (existingUrls [])) = A := by
  apply List.filter_eq_self.mpr
  intro a _
  simp [existingUrls, memOpt_nil]

/-- The two-page run of `handle_pagination` in closed form. -/
theorem handle_pagination_env2 (A B : List PagItem) (hA : A ≠ []) :
    (handle_pagination (env2 A B)).all_results =
      A ++ B.filter (fun it => !memOpt it.url (existingUrls A)) := by
  by_cases hB : B = []
  · subst hB
    simp [handle_pagination, pagLoop, env2, dedupExtend, hA,
      filter_eq_self_of_memOpt_nil]
  · simp [handle_pagination, pagLoop, env2, dedupExtend, hA, hB,
      filter_eq_self_of_memOpt_nil]

/-- C5 amended.  Deduplication across pages is by URL equality for truthy
(non-empty, present) URLs, applied against previously accumulated pages
only: once page 1 has produced a record with a non-empty URL `u`, page 2
contributes no further record with URL `u`, so the retained records with
URL `u` are exactly page 1's — in particular exactly one is retained when
page 1 produced it exactly once.  (Within a single page's batch duplicates
are all retained, and records with an empty or missing url bypass
deduplication entirely — hence the correction.) -/
theorem pagination_dedup_across_pages (A B : List PagItem) (u : PyStr)
    (hu : u ≠ []) (hA : ∃ a ∈ A, a.url = some u) :
    (handle_pagination (env2 A B)).all_results.filter
        (fun it => decide (it.url = some u)) =
      A.filter (fun it => decide (it.url = some u)) ∧
    (A.countP (fun it => decide (it.url = some u)) = 1 →
      (handle_pagination (env2 A B)).all_results.countP
        (fun it => decide (it.url = some u)) = 1) := by
  have hAne : A ≠ [] := by
    rintro rfl
    obtain ⟨a, ha, _⟩ := hA
    exact absurd ha (List.not_mem_nil a)
  have hmain : (handle_pagination (env2 A B)).all_results.filter
      (fun it => decide (it.url = some u)) =
        A.filter (fun it => decide (it.url = some u)) := by
    rw [handle_pagination_env2 A B hAne, List.filter_append]
    have hBnone : (B.filter (fun it => !memOpt it.url (existingUrls A))).filter
        (fun it => decide (it.url = some u)) = [] := by
      rw [List.filter_eq_nil_iff]
      intro b hb
      simp only [decide_eq_true_eq]
      intro hbu
      have hkeep := List.of_mem_filter hb
      rw [hbu] at hkeep
      have : memOpt (some u) (existingUrls A) = true := by
        simp only [memOpt, decide_eq_true_eq]
        exact mem_existingUrls.mpr ⟨hA, hu⟩
      rw [this] at hkeep
      exact absurd hkeep (by simp)
    rw [hBnone, List.append_nil]
  refine ⟨hmain, fun hcount => ?_⟩
  rw [List.countP_eq_length_filter, hmain, ← List.countP_eq_length_filter]
  exact hcount

theorem pagination_dedup_across_pages_witness :
    (handle_pagination (env2 [⟨some ("https://x/j1".toList), none⟩]
        [⟨some ("https://x/j1".toList), none⟩])).all_results.filter
        (fun it => decide (it.url = some ("https://x/j1".toList))) =
      [(⟨some ("https://x/j1".toList), none⟩ : PagItem)].filter
        (fun it => decide (it.url = some ("https://x/j1".toList))) ∧
    ([(⟨some ("https://x/j1".toList), none⟩ : PagItem)].countP
        (fun it => decide (it.url = some ("https://x/j1".toList))) = 1 →
      (handle_pagination (env2 [⟨some ("https://x/j1".toList), none⟩]
          [⟨some ("https://x/j1".toList), none⟩])).all_results.countP
        (fun it => decide (it.url = some ("https://x/j1".toList))) = 1) :=
  pagination_dedup_across_pages
    [⟨some ("https://x/j1".toList), none⟩]
    [⟨some ("https://x/j1".toList), none⟩]
    ("https://x/j1".toList) (by decide)
    ⟨⟨some ("https://x/j1".toList), none⟩, List.mem_singleton_self _, rfl⟩

/-- Result dict of `detect_pagination_info` (lines 400-444). -/
structure PagInfo where
  has_pagination : Bool
  pagination_type : Option PyStr := none
  total_items : Option Nat := none
  error : Option PyStr := none
deriving DecidableEq

/-- Python `int(...)` on a digit run. -/
def natOfDigits (ds : PyStr) : Nat :=
  ds.foldl (fun n c => 10 * n + (c.toNat - 48)) 0

/-- Consume a literal prefix, returning the remainder. -/
def dropLit : PyStr → PyStr → Option PyStr
  | [], l => some l
  | _ :: _, [] => none
  | p :: ps, c :: cs => if c = p then dropLit ps cs else none

/-- Try to match the pattern `showing\s+\d+\s*-?\s*\d+\s+of\s+(\d+)`
(line 430) at the head of `l`, returning the captured total.  Maximal-munch
matching, which coincides with the regex on this pattern's token classes
(digits, whitespace and literals are disjoint). -/
def parseShowingAt (l : PyStr) : Option Nat :=
  match dropLit ("showing".toList) l with
  | none => none
  | some l1 =>
    let w1 := l1.takeWhile Char.isWhitespace
    let l2 := l1.dropWhile Char.isWhitespace
    if w1 = [] then none else
    let d1 := l2.takeWhile Char.isDigit
    let l3 := l2.dropWhile Char.isDigit
    if d1 = [] then none else
    let l4 := l3.dropWhile Char.isWhitespace
    let l5 := match l4 with
      | '-' :: r => r
      | _ => l4
    let l6 := l5.dropWhile Char.isWhitespace
    let d2 := l6.takeWhile Char.isDigit
    let l7 := l6.dropWhile Char.isDigit
    if d2 = [] then none else
    let w2 := l7.takeWhile Char.isWhitespace
    let l8 := l7.dropWhile Char.isWhitespace
    if w2 = [] then none else
    match dropLit ("of".toList) l8 with
    | none => none
    | some l9 =>
      let w3 := l9.takeWhile Char.isWhitespace
      let l10 := l9.dropWhile Char.isWhitespace
      if w3 = [] then none else
      let d3 := l10.takeWhile Char.isDigit
      if d3 = [] then none else some (natOfDigits d3)

/-- The `re.search` of the showing pattern: leftmost match. -/
def matchShowing : PyStr → Option Nat
  | [] => parseShowingAt []
  | c :: rest =>
    match parseShowingAt (c :: rest) with
    | some n => some n
    | none => matchShowing rest

/-- Embeds `detect_pagination_info` (lines 400-444) on the lowered page text.

The indicator loop (lines 422-426) checks `'next' in text_content or
soup.find(class_=re.compile('next', re.I))`: the module never imports `re`
at top level, and the function-local `import re` sits on line 429 — AFTER
the use on line 423 — so `re` is an unbound local there.  Hence when
`'next'` is not a substring of the page text the first loop iteration
raises `UnboundLocalError`, which the `except` at line 442 converts into
`{"has_pagination": False, "error": ...}`; the later indicators and the
"showing X of Y" scan (lines 429-434) are never reached.  Only when the
text contains `'next'` does the loop break before touching `re`, after
which line 429's import succeeds and the showing-pattern scan runs. -/
def detect_pagination_info (text : PyStr) : PagInfo :=
  let tl := lowerL text
  if containsSub ("next".toList) tl then
    match matchShowing tl with
    | some n =>
      { has_pagination := true, pagination_type := some ("Next button".toList),
        total_items := some n }
    | none =>
      { has_pagination := true, pagination_type := some ("Next button".toList) }
  else
    { has_pagination := false,
      error := some ("UnboundLocalError: local variable re referenced before assignment".toList) }

/-- C6.  On a page whose text is exactly the pagination pattern
"Showing 1-10 of 47", `detect_pagination_info` does NOT return
`has_pagination = true, total_items = 47` as the spec claims: because the
text does not contain the word "next", the indicator loop evaluates
`re.compile` before the function-local `import re` of line 429 has run,
raises `UnboundLocalError`, and the handler returns
`has_pagination = false` with no `total_items`. -/
theorem detect_pagination_info_showing_bug :
    detect_pagination_info ("Showing 1-10 of 47".toList) =
      { has_pagination := false,
        error := some ("UnboundLocalError: local variable re referenced before assignment".toList) } := by
  decide

/-!
## Listing Extractor and Strategy Executor — `src/tools/universal_scraper.py`
-/

/-- One entry of the parsed LLM `jobs` array in `_llm_extract_jobs`:
a JSON object with the keys the repair loop (lines 619-665) inspects.
`none` models an absent key. -/
structure RawJob where
  title : Option PyStr := none
  job_title : Option PyStr := none
  position : Option PyStr := none
  role : Option PyStr := none
  name : Option PyStr := none
  url : Option PyStr := none
  link : Option PyStr := none
  href : Option PyStr := none
  job_url : Option PyStr := none
  apply_url : Option PyStr := none
  location : Option PyStr := none
  description : Option PyStr := none
  relevance_score : Option Int := none
deriving DecidableEq

/-- One record of the `cleaned_jobs` list returned by `_llm_extract_jobs`. -/
structure CleanJob where
  title : PyStr
  url : PyStr
  location : PyStr
  description : PyStr
  relevance_score : Int
deriving DecidableEq

/-- Title aliasing of lines 628-638: keep `title` if present, else the
first of `job_title`, `position`, `role`, `name`; `none` means the record
is dropped. -/
def resolveTitle (j : RawJob) : Option PyStr :=
  j.title <|> j.job_title <|> j.position <|> j.role <|> j.name

/-- Url aliasing of lines 640-647: keep `url` if present, else the first
of `link`, `href`, `job_url`, `apply_url`. -/
def urlAlias (j : RawJob) : Option PyStr :=
  j.url <|> j.link <|> j.href <|> j.job_url <|> j.apply_url

/-- The per-record cleaning of `_llm_extract_jobs` (lines 619-665),
parameterised by the `urljoin` primitive (Python standard library) and the
current page URL.  A record with no title key after aliasing is dropped; a
record with no url key after aliasing receives the current page URL
(line 650); then line 655 resolves the url against the current page URL
ONLY when it is truthy, different from the placeholder `"#"`, and does not
start with `"http"`. -/
def cleanJobs (urljoin : PyStr → PyStr → PyStr) (current_url : PyStr)
    (jobs : List RawJob) : List CleanJob :=
  jobs.filterMap (fun j =>
    match resolveTitle j with
    | none => none
    | some t =>
      let u0 := (urlAlias j).getD current_url
      let u :=
        if u0 ≠ [] ∧ u0 ≠ ("#".toList) ∧ ¬ startsWithL ("http".toList) u0
        then urljoin current_url u0 else u0
      some { title := t, url := u, location := j.location.getD [],
             description := j.description.getD [],
             relevance_score := j.relevance_score.getD 50 })

/-- C3 counterexample.  A record whose url is the placeholder `"#"` is NOT
resolved and NOT dropped: `_llm_extract_jobs` returns it to the caller with
url `"#"`, an unresolved non-absolute URL, contradicting the claimed
invariant that no such record ever crosses the extractor's boundary. -/
theorem llm_extract_jobs_hash_url_counterexample :
    cleanJobs (fun b r => b ++ r) ("https://site/careers".toList)
        [{ title := some ("X".toList), url := some ("#".toList) }] =
      [{ title := "X".toList, url := "#".toList, location := [],
         description := [], relevance_score := 50 }] := by
  decide

/-- C3 amended.  Every record `_llm_extract_jobs` returns does carry a
title (records with no title key after aliasing are dropped) and a url
field, and that url is the aliased url resolved against the current page
URL — EXCEPT that an empty url, the placeholder `"#"`, and urls already
starting with `"http"` are passed through unchanged, and a record with no
url key at all receives the current page URL verbatim. -/
theorem llm_extract_jobs_url_resolution (urljoin : PyStr → PyStr → PyStr)
    (current_url : PyStr) :
    (∀ (jobs : List RawJob), ∀ c ∈ cleanJobs urljoin current_url jobs,
      ∃ j ∈ jobs, resolveTitle j = some c.title ∧
        c.url = (if (urlAlias j).getD current_url ≠ [] ∧
            (urlAlias j).getD current_url ≠ ("#".toList) ∧
            ¬ startsWithL ("http".toList) ((urlAlias j).getD current_url)
          then urljoin current_url ((urlAlias j).getD current_url)
          else (urlAlias j).getD current_url)) ∧
    (∀ (j : RawJob) (rest : List RawJob), resolveTitle j = none →
      cleanJobs urljoin current_url (j :: rest) =
        cleanJobs urljoin current_url rest) := by
  constructor
  · intro jobs c hc
    unfold cleanJobs at hc
    obtain ⟨j, hj, hcj⟩ := List.mem_filterMap.mp hc
    refine ⟨j, hj, ?_⟩
    cases ht : resolveTitle j with
    | none => rw [ht] at hcj; exact absurd hcj (by simp)
    | some t =>
      rw [ht] at hcj
      have hcj' := Option.some_injective _ hcj
      constructor
      · rw [← hcj']
      · rw [← hcj']
  · intro j rest ht
    unfold cleanJobs
    rw [List.filterMap_cons, ht]

theorem llm_extract_jobs_url_resolution_witness :
    (∃ j ∈ [({ title := some ("X".toList), url := some ("jobs/1".toList) } :
          RawJob)],
      resolveTitle j = some (("X".toList : PyStr)) ∧
        ("https://site/careers".toList ++ "jobs/1".toList : PyStr) =
          (if (urlAlias j).getD ("https://site/careers".toList) ≠ [] ∧
              (urlAlias j).getD ("https://site/careers".toList) ≠ ("#".toList) ∧
              ¬ startsWithL ("http".toList)
                ((urlAlias j).getD ("https://site/careers".toList))
            then (fun b r => b ++ r) ("https://site/careers".toList)
              ((urlAlias j).getD ("https://site/careers".toList))
            else (urlAlias j).getD ("https://site/careers".toList))) ∧
    cleanJobs (fun b r => b ++ r) ("https://site/careers".toList)
        [{ job_url := some ("https://a/b".toList) }] =
      cleanJobs (fun b r => b ++ r) ("https://site/careers".toList) [] := by
  constructor
  · have h := (llm_extract_jobs_url_resolution (fun b r => b ++ r)
      ("https://site/careers".toList)).1
      [{ title := some ("X".toList), url := some ("jobs/1".toList) }]
      { title := "X".toList,
        url := ("https://site/careers".toList ++ "jobs/1".toList),
        location := [], description := [], relevance_score := 50 }
      (by decide)
    obtain ⟨j, hj, hres, hurl⟩ := h
    exact ⟨j, hj, hres, hurl⟩
  · exact (llm_extract_jobs_url_resolution (fun b r => b ++ r)
      ("https://site/careers".toList)).2
      { job_url := some ("https://a/b".toList) } [] rfl

/-- The `execution_plan` dict of an LLM strategy (lines 129-136), plus the
`submit_button_selector` probed at line 365. -/
structure ExecPlan where
  iframe_index : Option Int := none
  iframe_src : Option PyStr := none
  search_input_selector : Option PyStr := none
  submit_button_selector : Option PyStr := none
  target_link_url : Option PyStr := none
  needs_scrolling : Option Bool := none
  scroll_amount : Option Nat := none
deriving DecidableEq

/-- The validated strategy dict dispatched by `_execute_extraction_strategy`
(line 272): tag, plan and the advisory `fallback_strategy` tag. -/
structure Strategy where
  strategy : PyStr
  execution_plan : ExecPlan := {}
  fallback_strategy : Option PyStr := none
deriving DecidableEq

/-- A result dict as returned by the per-strategy handlers: a `success`
flag plus the keys the respective path sets. -/
structure SResult where
  success : Bool
  error : Option PyStr := none
  job_listings : Option (List CleanJob) := none
  total_found : Option Nat := none
deriving DecidableEq

/-- The externally-determined outcomes of the browser/LLM interactions the
executor's handlers perform.  Each `Except.error` is a raised Python
exception; each handler catches its own exceptions (the `except Exception`
blocks at lines 340, 376, 418/427/445, 467 and 494) and converts them into
`{"success": False, "error": ...}` result dicts. -/
structure ExecEnv where
  current_url : PyStr
  urljoin : PyStr → PyStr → PyStr
  navigate : PyStr → Except PyStr Unit
  frames : Except PyStr Nat
  fill : Except PyStr SResult
  click : Except PyStr Unit
  submit : Except PyStr Unit
  scroll : Except PyStr Unit
  direct : Except PyStr (List CleanJob)

/-- Embeds `_execute_direct_extraction` (lines 380-447): waits, scrolls, fetches
the page and runs `_llm_extract_jobs` (which itself returns `[]` on its own
failures); any exception along the way is caught at line 445 into a failure
dict. -/
def exec_direct (env : ExecEnv) : SResult :=
  match env.direct with
  | .ok jobs =>
    { success := true, job_listings := some jobs, total_found := some jobs.length }
  | .error e => { success := false, error := some e }

/-- Embeds `_execute_iframe_strategy` (lines 312-342): navigate to the (resolved)
iframe src when present, otherwise peek at the live frame list, then direct
extraction; exceptions are caught at line 340. -/
def exec_iframe (env : ExecEnv) (plan : ExecPlan) : SResult :=
  match plan.iframe_src with
  | some src =>
    let src' := if startsWithL ("http".toList) src then src
      else env.urljoin env.current_url src
    match env.navigate src' with
    | .error e => { success := false, error := some e }
    | .ok _ => exec_direct env
  | none =>
    match env.frames with
    | .error e => { success := false, error := some e }
    | .ok _ => exec_direct env

/-- Embeds `_execute_search_strategy` (lines 344-378): missing selector is an
immediate failure dict; a failed fill result is returned as-is; then the
submit click (or implicit submit) and direct extraction; exceptions are
caught at line 376. -/
def exec_search (env : ExecEnv) (plan : ExecPlan) : SResult :=
  match plan.search_input_selector with
  | none => { success := false, error := some ("No search selector provided".toList) }
  | some _ =>
    match env.fill with
    | .error e => { success := false, error := some e }
    | .ok fill_result =>
      if !fill_result.success then fill_result
      else
        match (match plan.submit_button_selector with
          | some _ => env.click
          | none => env.submit) with
        | .error e => { success := false, error := some e }
        | .ok _ => exec_direct env

/-- Embeds `_execute_navigation_strategy` (lines 449-469). -/
def exec_navigation (env : ExecEnv) (plan : ExecPlan) : SResult :=
  match plan.target_link_url with
  | none => { success := false, error := some ("No target URL".toList) }
  | some t =>
    let t' := if startsWithL ("http".toList) t then t
      else env.urljoin env.current_url t
    match env.navigate t' with
    | .error e => { success := false, error := some e }
    | .ok _ => exec_direct env

/-- Embeds `_execute_scroll_strategy` (lines 471-496). -/
def exec_scroll (env : ExecEnv) : SResult :=
  match env.scroll with
  | .error e => { success := false, error := some e }
  | .ok _ => exec_direct env

/-- The dispatch of `_execute_extraction_strategy`'s `try` block
(lines 281-299); unknown tags fall through to direct extraction. -/
def strategyBody (env : ExecEnv) (strat : Strategy) : SResult :=
  let plan := strat.execution_plan
  if strat.strategy = ("iframe_navigation".toList) then exec_iframe env plan
  else if strat.strategy = ("use_search_form".toList) then exec_search env plan
  else if strat.strategy = ("extract_current_page".toList) then exec_direct env
  else if strat.strategy = ("navigate_to_link".toList) then exec_navigation env plan
  else if strat.strategy = ("scroll_and_extract".toList) then exec_scroll env
  else exec_direct env

/-- Embeds `_execute_extraction_strategy` (lines 272-310).  The second component
counts executions of the fallback direct extraction of line 308.  Every
per-strategy handler catches its own exceptions and returns a failure dict,
so nothing inside the `try` block of lines 281-299 can raise: the body is
always an `Except.ok` and the `except` branch of lines 301-310 — the only
place a fallback attempt happens — is modelled exactly but unreachable. -/
def execute_extraction_strategy (env : ExecEnv) (strat : Strategy) :
    SResult × Nat :=
  let body : Except PyStr SResult := .ok (strategyBody env strat)
  match body with
  | .ok r => (r, 0)
  | .error e =>
    match strat.fallback_strategy with
    | some fb =>
      if fb ≠ [] ∧ fb ≠ strat.strategy then (exec_direct env, 1)
      else ({ success := false, error := some e }, 0)
    | none => ({ success := false, error := some e }, 0)

/-- A concrete all-successful interaction environment. -/
def envOkC : ExecEnv :=
  { current_url := "https://site/careers".toList
    urljoin := fun b r => b ++ r
    navigate := fun _ => .ok ()
    frames := .ok 1
    fill := .ok { success := true }
    click := .ok ()
    submit := .ok ()
    scroll := .ok ()
    direct := .ok [] }

/-- C4 counterexample.  Executing the `use_search_form` strategy (not
`extract_current_page`) with no search selector fails — and the executor
performs ZERO fallback attempts via direct extraction, not exactly one:
the failure is produced as a result dict inside the handler, so the
exception-triggered fallback of lines 301-310 never runs. -/
theorem executor_no_fallback_counterexample :
    (execute_extraction_strategy envOkC
        { strategy := "use_search_form".toList,
          fallback_strategy := some ("extract_current_page".toList) }).1.success
        = false ∧
    (execute_extraction_strategy envOkC
        { strategy := "use_search_form".toList,
          fallback_strategy := some ("extract_current_page".toList) }).2 = 0 ∧
    ("use_search_form".toList : PyStr) ≠ ("extract_current_page".toList) := by
  refine ⟨?_, rfl, by decide⟩
  decide

/-- C4 amended.  The executor never performs more than one fallback hop —
in this code, in fact, it performs none: because every per-strategy handler
catches its own exceptions and returns a failure result dict, the executor
always returns the handler's result unchanged with zero fallback
direct-extraction attempts, for every strategy and every interaction
outcome. -/
theorem executor_at_most_one_fallback (env : ExecEnv) (strat : Strategy) :
    execute_extraction_strategy env strat = (strategyBody env strat, 0) ∧
    (execute_extraction_strategy env strat).2 ≤ 1 := by
  exact ⟨rfl, by simp [execute_extraction_strategy]⟩

/-!
## Iframe Resolver — `src/tools/iframe_handler.py`
-/

/-- One iframe attribute record as built by `_detect_iframes`
(lines 73-84); only the attributes `_calculate_iframe_relevance` reads are
modelled.  `class_attr` is BeautifulSoup's list of class names. -/
structure IframeRec where
  src : Option PyStr := none
  id : Option PyStr := none
  name : Option PyStr := none
  class_attr : List PyStr := []
  title : Option PyStr := none
deriving DecidableEq

/-- The f-string rendering of a possibly-`None` attribute (line 113):
`str(None)` is the four characters `None`. -/
def pyShow (o : Option PyStr) : PyStr := o.getD ("None".toList)

/-- Python space-join of a class list (line 118). -/
def joinSpace : List PyStr → PyStr
  | [] => []
  | [x] => x
  | x :: y :: rest => x ++ ' ' :: joinSpace (y :: rest)

/-- Python `any(keyword in hay for keyword in kws)`. -/
def kwAny (kws : List PyStr) (hay : PyStr) : Bool :=
  kws.any (fun k => containsSub k hay)

def src_keywords : List PyStr :=
  ["job".toList, "career".toList, "position".toList, "apply".toList,
   "workday".toList, "greenhouse".toList, "lever".toList]

def idname_keywords : List PyStr :=
  ["job".toList, "career".toList, "position".toList, "listing".toList]

def class_keywords : List PyStr :=
  ["job".toList, "career".toList, "position".toList]

def title_keywords : List PyStr :=
  ["job".toList, "career".toList, "position".toList]

def ats_systems : List PyStr :=
  ["workday".toList, "greenhouse".toList, "lever".toList, "icims".toList,
   "taleo".toList, "smartrecruiters".toList, "jobvite".toList]

/-- Embeds `_calculate_iframe_relevance` (lines 103-132): additive signal checks
+50 (src keyword), +30 (id/name keyword), +20 (class keyword), +25 (title
keyword), +60 (known ATS domain in src). -/
def calculate_iframe_relevance (i : IframeRec) : Int :=
  let src := lowerL (i.src.getD [])
  let id_name := lowerL (pyShow i.id ++ ' ' :: pyShow i.name)
  let classes := lowerL (joinSpace i.class_attr)
  let title := lowerL (i.title.getD [])
  (if kwAny src_keywords src then 50 else 0)
    + (if kwAny idname_keywords id_name then 30 else 0)
    + (if kwAny class_keywords classes then 20 else 0)
    + (if kwAny title_keywords title then 25 else 0)
    + (if kwAny ats_systems src then 60 else 0)

/-- C8 counterexample.  Appending the known ATS domain "workday" to a src
that already contains it leaves the relevance score UNCHANGED (both signal
checks were already saturated), so the claimed strict monotonicity fails on
such records. -/
theorem iframe_relevance_counterexample :
    calculate_iframe_relevance
        { src := some ("workday".toList ++ "workday".toList) } =
      calculate_iframe_relevance { src := some ("workday".toList) } := by
  decide

theorem containsSub_append_right {n h : PyStr} (t : PyStr)
    (hc : containsSub n h = true) : containsSub n (h ++ t) = true := by
  simp only [containsSub, decide_eq_true_eq] at hc ⊢
  exact hc.trans (List.prefix_append h t).isInfix

theorem containsSub_suffix (s kw : PyStr) : containsSub kw (s ++ kw) = true := by
  simp only [containsSub, decide_eq_true_eq]
  exact (List.suffix_append s kw).isInfix

theorem kwAny_append_right {kws : List PyStr} {h : PyStr} (t : PyStr)
    (hk : kwAny kws h = true) : kwAny kws (h ++ t) = true := by
  simp only [kwAny, List.any_eq_true] at hk ⊢
  obtain ⟨k, hkmem, hkc⟩ := hk
  exact ⟨k, hkmem, containsSub_append_right t hkc⟩

theorem ats_systems_lower_fixed : ∀ kw ∈ ats_systems, lowerL kw = kw := by
  decide

/-- C8 amended.  Appending a known ATS domain substring to the src of an
iframe record whose src does not already contain any known ATS domain
substring strictly increases its relevance score (by at least the +60 ATS
signal); for records whose src already matches an ATS domain the score can
stay unchanged, as the counterexample shows — hence the correction. -/
theorem iframe_relevance_ats_monotone (rec : IframeRec) (s kw : PyStr)
    (hsrc : rec.src = some s) (hkw : kw ∈ ats_systems)
    (hno : kwAny ats_systems (lowerL s) = false) :
    calculate_iframe_relevance rec <
      calculate_iframe_relevance { rec with src := some (s ++ kw) } := by
  have hfix : lowerL kw = kw := ats_systems_lower_fixed kw hkw
  have hlow : lowerL (s ++ kw) = lowerL s ++ kw := by
    rw [lowerL_append, hfix]
  unfold calculate_iframe_relevance
  rw [hsrc]
  simp only [Option.getD_some, hlow]
  have hats_new : kwAny ats_systems (lowerL s ++ kw) = true := by
    simp only [kwAny, List.any_eq_true]
    exact ⟨kw, hkw, containsSub_suffix (lowerL s) kw⟩
  have hsrcle : (if kwAny src_keywords (lowerL s) = true then (50 : Int) else 0) ≤
      (if kwAny src_keywords (lowerL s ++ kw) = true then (50 : Int) else 0) := by
    by_cases h : kwAny src_keywords (lowerL s) = true
    · rw [if_pos h, if_pos (kwAny_append_right kw h)]
    · rw [if_neg h]
      split_ifs <;> omega
  have hatslt : (if kwAny ats_systems (lowerL s) = true then (60 : Int) else 0) <
      (if kwAny ats_systems (lowerL s ++ kw) = true then (60 : Int) else 0) := by
    rw [if_neg (by simp [hno]), if_pos hats_new]
    omega
  exact add_lt_add_of_le_of_lt
    (add_le_add_right (add_le_add_right (add_le_add_right hsrcle _) _) _) hatslt

theorem iframe_relevance_ats_monotone_witness :
    calculate_iframe_relevance { src := some ("https://a/jobs".toList) } <
      calculate_iframe_relevance
        { src := some ("https://a/jobs".toList ++ "workday".toList) } :=
  iframe_relevance_ats_monotone { src := some ("https://a/jobs".toList) }
    ("https://a/jobs".toList) ("workday".toList) rfl (by decide) (by decide)

/-!
## Orchestrator — `src/magents/lead_agent.py`
-/

/-- A result dict of `process_job_request`; `none` fields model keys absent
from the dict that particular path returns. -/
structure OrchResult where
  success : Bool
  error : Option PyStr := none
  error_type : Option PyStr := none
  recommendation : Option PyStr := none
  company_url : Option PyStr := none
  careers_url : Option PyStr := none
  total_jobs_found : Option Nat := none
  jobs_found : Option Nat := none
deriving DecidableEq

/-- Embeds `_handle_scraping_error` (lines 386-433): classify the exception text
by substring and return a failure dict that always carries `error`,
`error_type` and `recommendation`. -/
def handle_scraping_error (e : PyStr) : OrchResult :=
  let es := lowerL e
  if containsSub ("cloudflare".toList) es then
    { success := false,
      error := some ("Cloudflare protection detected".toList),
      error_type := some ("bot_protection".toList),
      recommendation := some ("This website uses Cloudflare protection. Try using a proxy or contact the company directly.".toList) }
  else if containsSub ("recaptcha".toList) es then
    { success := false,
      error := some ("reCAPTCHA detected".toList),
      error_type := some ("captcha".toList),
      recommendation := some ("This website requires human verification. Manual application recommended.".toList) }
  else if containsSub ("timeout".toList) es then
    { success := false,
      error := some ("Page load timeout".toList),
      error_type := some ("timeout".toList),
      recommendation := some ("The website is slow or unresponsive. Try again later.".toList) }
  else if containsSub ("navigation".toList) es then
    { success := false,
      error := some ("Navigation failed".toList),
      error_type := some ("navigation".toList),
      recommendation := some ("Could not navigate to the careers page. Check if the URL is correct.".toList) }
  else
    { success := false,
      error := some e,
      error_type := some ("unknown".toList),
      recommendation := some ("An unexpected error occurred. Please try again.".toList) }

/-- The outcome of one universal-scraper (or fallback-scraper) invocation,
a total dict: `scrape_any_careers_page` and `_fallback_scraping` both catch
their own exceptions. -/
structure ScrapeOutcome where
  success : Bool
  job_listings : List JmLink := []
deriving DecidableEq

/-- The externally-determined outcomes of the orchestration steps of
`process_job_request` (lines 107-276).  Steps whose implementations catch
all their exceptions (search use, pagination detection, the pagination
drive, both scraper calls, the fallback scrapes, detail scraping) are total
values; steps that can raise into the orchestrator's `except` (company
lookup, careers-page discovery, navigation, the matcher — whose log line
indexes `job_params['job_title']` before its own `try`) are `Except`. -/
structure OrchEnv where
  company : Except PyStr PyStr
  careers : Except PyStr PyStr
  navigate : Except PyStr Unit
  search_used : Bool
  has_pagination : Bool
  pagination_results : List JmLink
  scrape1 : ScrapeOutcome
  fallback1 : ScrapeOutcome
  scrape2 : ScrapeOutcome
  fallback2 : ScrapeOutcome
  matcher : Except PyStr AllMatchesResult
  scraped_jobs : List Nat

/-- The result dict of the no-listings terminations (lines 180-185 and
219-224): `success=False` with `error` but neither `error_type` nor
`recommendation`. -/
def noListingsResult (company_url careers_url : PyStr) : OrchResult :=
  { success := false,
    error := some ("No job listings found on careers page".toList),
    company_url := some company_url, careers_url := some careers_url }

/-- Embeds `process_job_request` (lines 107-276), driven by the step outcomes.
The duplicated extraction block of lines 194-224 (the pipeline scrapes a
second time before matching) is modelled faithfully as `scrape2` /
`fallback2`.  Any step exception lands in the `except` of line 274 and is
classified by `_handle_scraping_error`. -/
def process_job_request (env : OrchEnv) : OrchResult :=
  match env.company with
  | .error e => handle_scraping_error e
  | .ok company_url =>
  match env.careers with
  | .error e => handle_scraping_error e
  | .ok careers_url =>
  match env.navigate with
  | .error e => handle_scraping_error e
  | .ok _ =>
  let links1 :=
    if env.has_pagination then env.pagination_results
    else if env.scrape1.success then env.scrape1.job_listings
    else env.fallback1.job_listings
  if links1 = [] then noListingsResult company_url careers_url
  else
    let links2 :=
      if env.scrape2.success then env.scrape2.job_listings
      else env.fallback2.job_listings
    if links2 = [] then noListingsResult company_url careers_url
    else
      match env.matcher with
      | .error e => handle_scraping_error e
      | .ok all_matches =>
        if all_matches.matches_.getD [] = [] then
          { success := false,
            error := some ("No jobs matched the search criteria".toList),
            total_jobs_found := some links2.length,
            company_url := some company_url,
            careers_url := some careers_url }
        else
          { success := true,
            jobs_found := some env.scraped_jobs.length,
            company_url := some company_url,
            careers_url := some careers_url }

/-- A concrete environment reaching the no-listings termination: every step
succeeds but the scraper finds zero listings. -/
def envNoListings : OrchEnv :=
  { company := .ok ("https://c".toList)
    careers := .ok ("https://c/careers".toList)
    navigate := .ok ()
    search_used := false
    has_pagination := false
    pagination_results := []
    scrape1 := { success := true }
    fallback1 := { success := false }
    scrape2 := { success := true }
    fallback2 := { success := false }
    matcher := .ok { success := true, matches_ := some [] }
    scraped_jobs := [] }

/-- C9 counterexample.  The no-listings-found termination is a failure
result that carries `success=False` and `error` but NEITHER `error_type`
NOR `recommendation`, contradicting the claim that every failure path of
the orchestrator produces all three fields. -/
theorem orchestrator_failure_fields_counterexample :
    (process_job_request envNoListings).success = false ∧
    (process_job_request envNoListings).error =
      some ("No job listings found on careers page".toList) ∧
    (process_job_request envNoListings).error_type = none ∧
    (process_job_request envNoListings).recommendation = none := by
  decide

theorem handle_scraping_error_fields (e : PyStr) :
    (handle_scraping_error e).success = false ∧
    (handle_scraping_error e).error.isSome = true ∧
    (handle_scraping_error e).error_type.isSome = true ∧
    (handle_scraping_error e).recommendation.isSome = true := by
  unfold handle_scraping_error
  dsimp only
  split_ifs <;> simp

/-- C9 amended.  Every failure result of the orchestrator carries
`success=False` and an `error` field, and the exception path
(`_handle_scraping_error`) carries all three of `error`, `error_type` and
`recommendation` — but the no-listings-found and no-matches-found
terminations omit `error_type` and `recommendation` (on every failure path
the two are present or absent together). -/
theorem orchestrator_failure_fields (env : OrchEnv) (e : PyStr) :
    ((handle_scraping_error e).success = false ∧
      (handle_scraping_error e).error.isSome = true ∧
      (handle_scraping_error e).error_type.isSome = true ∧
      (handle_scraping_error e).recommendation.isSome = true) ∧
    ((process_job_request env).success = false →
      (process_job_request env).error.isSome = true ∧
        ((process_job_request env).error_type.isSome =
          (process_job_request env).recommendation.isSome)) := by
  refine ⟨handle_scraping_error_fields e, ?_⟩
  unfold process_job_request
  rcases env.company with e1 | cu
  · intro _
    have h := handle_scraping_error_fields e1
    exact ⟨h.2.1, by rw [h.2.2.1, h.2.2.2]⟩
  rcases env.careers with e2 | cr
  · intro _
    have h := handle_scraping_error_fields e2
    exact ⟨h.2.1, by rw [h.2.2.1, h.2.2.2]⟩
  rcases env.navigate with e3 | _
  · intro _
    have h := handle_scraping_error_fields e3
    exact ⟨h.2.1, by rw [h.2.2.1, h.2.2.2]⟩
  dsimp only
  by_cases h1 : (if env.has_pagination then env.pagination_results
      else if env.scrape1.success then env.scrape1.job_listings
      else env.fallback1.job_listings) = []
  · rw [if_pos h1]
    intro _
    simp [noListingsResult]
  rw [if_neg h1]
  by_cases h2 : (if env.scrape2.success then env.scrape2.job_listings
      else env.fallback2.job_listings) = []
  · rw [if_pos h2]
    intro _
    simp [noListingsResult]
  rw [if_neg h2]
  rcases env.matcher with e4 | am
  · intro _
    have h := handle_scraping_error_fields e4
    exact ⟨h.2.1, by rw [h.2.2.1, h.2.2.2]⟩
  dsimp only
  by_cases h3 : am.matches_.getD [] = []
  · rw [if_pos h3]
    intro _
    simp
  · rw [if_neg h3]
    intro hfalse
    simp at hfalse

theorem orchestrator_failure_fields_witness :
    (((handle_scraping_error ("Timeout while loading".toList)).success = false ∧
      (handle_scraping_error ("Timeout while loading".toList)).error.isSome = true ∧
      (handle_scraping_error ("Timeout while loading".toList)).error_type.isSome
        = true ∧
      (handle_scraping_error
        ("Timeout while loading".toList)).recommendation.isSome = true) ∧
    ((process_job_request envNoListings).success = false →
      (process_job_request envNoListings).error.isSome = true ∧
        ((process_job_request envNoListings).error_type.isSome =
          (process_job_request envNoListings).recommendation.isSome))) :=
  orchestrator_failure_fields envNoListings ("Timeout while loading".toList)
